import Mathlib

/-
Formal verification of the LinuxRA02 Python binding (bindings/ra02.py),
a thin FFI layer over the ra02 C shared library.

The Python binding itself is shallowly embedded below: its pure control
flow (error-code checking, buffer slicing, attribute lookup on the
dynamic-library handle) is translated directly from the source.  The C
driver functions behind the FFI boundary (spi.c, timeout.c, ra02.c) are
not part of this repository; where a claim depends on them they are
modelled from the specification, and each such definition carries a doc
comment starting with the words Modelled from the spec.
-/

namespace Ra02Binding

/-- Python exceptions raised by the binding: the two binding-level
exceptions (InvalidErrorCodeException carries the offending code as its
message, LibraryUninitializedException) and the eighteen exception
classes mirrored from error codes in error.h. -/
inductive PyExc where
  | InvalidErrorCodeException : Int → PyExc
  | LibraryUninitializedException : PyExc
  | FailedException : PyExc
  | AssertException : PyExc
  | NullException : PyExc
  | InvalidException : PyExc
  | NotImplementedException : PyExc
  | TimeoutException : PyExc
  | NoResponseException : PyExc
  | OverflowException : PyExc
  | UnderflowException : PyExc
  | AgainException : PyExc
  | DoneException : PyExc
  | CorruptException : PyExc
  | BusyException : PyExc
  | NotFoundException : PyExc
  | CancelledException : PyExc
  | EmptyException : PyExc
  | NoMemoryException : PyExc
  | OutOfBoundsException : PyExc
  deriving DecidableEq, Repr

/-- The EXCEPTIONS dictionary of the binding (port of error_t from
error.h): a finite map from integer error codes 1..18 to exception
classes.  Dictionary membership and lookup are embedded as an if-chain
on the key. -/
def EXCEPTIONS (code : Int) : Option PyExc :=
  if code = 1 then some .FailedException
  else if code = 2 then some .AssertException
  else if code = 3 then some .NullException
  else if code = 4 then some .InvalidException
  else if code = 5 then some .NotImplementedException
  else if code = 6 then some .TimeoutException
  else if code = 7 then some .NoResponseException
  else if code = 8 then some .OverflowException
  else if code = 9 then some .UnderflowException
  else if code = 10 then some .AgainException
  else if code = 11 then some .DoneException
  else if code = 12 then some .CorruptException
  else if code = 13 then some .BusyException
  else if code = 14 then some .NotFoundException
  else if code = 15 then some .CancelledException
  else if code = 16 then some .EmptyException
  else if code = 17 then some .NoMemoryException
  else if code = 18 then some .OutOfBoundsException
  else none

/-- The error_check function of the binding: if err is not 0, raise the
exception EXCEPTIONS[err] when err is a key of the dictionary, and raise
InvalidErrorCodeException(err) otherwise; return normally when err = 0.
Raising is embedded as Except.error, normal return as Except.ok. -/
def error_check (err : Int) : Except PyExc Unit :=
  if err ≠ 0 then
    match EXCEPTIONS err with
    | some e => .error e
    | none => .error (.InvalidErrorCodeException err)
  else .ok ()

/-- Codes outside 1..18 are not keys of the EXCEPTIONS dictionary. -/
theorem EXCEPTIONS_eq_none_of_out_of_range (c : Int)
    (h : c < 1 ∨ 18 < c) : EXCEPTIONS c = none := by
  have hk : ∀ k : Int, 1 ≤ k ∧ k ≤ 18 → c ≠ k := fun k hkk => by omega
  unfold EXCEPTIONS
  rw [if_neg (hk 1 (by norm_num)), if_neg (hk 2 (by norm_num)),
    if_neg (hk 3 (by norm_num)), if_neg (hk 4 (by norm_num)),
    if_neg (hk 5 (by norm_num)), if_neg (hk 6 (by norm_num)),
    if_neg (hk 7 (by norm_num)), if_neg (hk 8 (by norm_num)),
    if_neg (hk 9 (by norm_num)), if_neg (hk 10 (by norm_num)),
    if_neg (hk 11 (by norm_num)), if_neg (hk 12 (by norm_num)),
    if_neg (hk 13 (by norm_num)), if_neg (hk 14 (by norm_num)),
    if_neg (hk 15 (by norm_num)), if_neg (hk 16 (by norm_num)),
    if_neg (hk 17 (by norm_num)), if_neg (hk 18 (by norm_num))]

/-- Codes inside 1..18 are keys of the EXCEPTIONS dictionary. -/
theorem EXCEPTIONS_isSome_of_in_range (c : Int)
    (h1 : 1 ≤ c) (h2 : c ≤ 18) : ∃ e, EXCEPTIONS c = some e := by
  interval_cases c <;> exact ⟨_, rfl⟩

/-- C1: error_check(0) returns normally, and for each code c with
1 ≤ c ≤ 18, error_check(c) raises exactly the exception kind assigned
to c by the closed taxonomy of error.h. -/
theorem error_check_taxonomy :
    error_check 0 = .ok () ∧
    error_check 1 = .error .FailedException ∧
    error_check 2 = .error .AssertException ∧
    error_check 3 = .error .NullException ∧
    error_check 4 = .error .InvalidException ∧
    error_check 5 = .error .NotImplementedException ∧
    error_check 6 = .error .TimeoutException ∧
    error_check 7 = .error .NoResponseException ∧
    error_check 8 = .error .OverflowException ∧
    error_check 9 = .error .UnderflowException ∧
    error_check 10 = .error .AgainException ∧
    error_check 11 = .error .DoneException ∧
    error_check 12 = .error .CorruptException ∧
    error_check 13 = .error .BusyException ∧
    error_check 14 = .error .NotFoundException ∧
    error_check 15 = .error .CancelledException ∧
    error_check 16 = .error .EmptyException ∧
    error_check 17 = .error .NoMemoryException ∧
    error_check 18 = .error .OutOfBoundsException :=
  ⟨rfl, rfl, rfl, rfl, rfl, rfl, rfl, rfl, rfl, rfl,
   rfl, rfl, rfl, rfl, rfl, rfl, rfl, rfl, rfl⟩

/-- C2: every non-zero code outside 1..18 raises the distinct
InvalidErrorCodeException carrying that code; it is neither treated as
success nor mapped to any of the 18 known kinds. -/
theorem error_check_unknown_code (c : Int) (h0 : c ≠ 0)
    (hout : c < 1 ∨ 18 < c) :
    error_check c = .error (.InvalidErrorCodeException c) := by
  unfold error_check
  rw [if_pos h0, EXCEPTIONS_eq_none_of_out_of_range c hout]

/-- Witness for C2 at the concrete unknown code 99. -/
theorem error_check_unknown_code_witness :
    error_check 99 = .error (.InvalidErrorCodeException 99) :=
  error_check_unknown_code 99 (by decide) (Or.inr (by decide))

/-- Behaviour of the external C function spi_transcieve for one call:
the integer error_t code it returns, and the byte it leaves at each
index of the caller-allocated rx buffer.  The binding allocates the rx
buffer as a ctypes array of exactly len(data) uint8 cells, so whatever
the C side writes, reading the array back yields one byte per index. -/
structure BusExchange where
  code : Int
  rxByte : Nat → Nat

/-- The transceive method of class Spi: allocate tx_buf from data and a
zero rx buffer of the same length, call spi_transcieve through the
library, pass its return code to error_check, and on normal return give
back list(rx_buf), the rx array read index by index. -/
def Spi.transceive (bus : BusExchange) (data : List Nat) :
    Except PyExc (List Nat) := do
  error_check bus.code
  return (List.range data.length).map bus.rxByte

/-- C3: whenever Spi.transceive returns normally the result has exactly
len(data) elements; when the bus call fails no partial result is
returned, only the raised exception. -/
theorem transceive_length (bus : BusExchange) (data : List Nat)
    (rx : List Nat) (h : Spi.transceive bus data = .ok rx) :
    rx.length = data.length := by
  unfold Spi.transceive at h
  cases hc : error_check bus.code with
  | ok u =>
      rw [hc] at h
      simp only [Except.bind, Except.pure, bind, pure] at h
      cases h
      simp
  | error e =>
      rw [hc] at h
      simp [Except.bind, bind] at h

/-- Witness for C3: a successful exchange of three bytes over a bus
that reports success and echoes zero bytes. -/
theorem transceive_length_witness :
    ((List.range (3 : Nat)).map (fun _ => (0 : Nat))).length = 3 :=
  transceive_length ⟨0, fun _ => 0⟩ [1, 2, 3] _ rfl

/-- MAX_PAYLOAD constant of class Ra02: max packet size in bytes. -/
def MAX_PAYLOAD : Nat := 64

/-- Behaviour of the external C function ra02_recv for one call: the
error_t code it returns, the value it leaves in the size_t
out-parameter (initialized by the binding to MAX_PAYLOAD), and the byte
it leaves at each index of the caller-allocated MAX_PAYLOAD-byte
buffer. -/
structure RecvOutcome where
  code : Int
  size : Nat
  bufByte : Nat → Nat

/-- The recv method of class Ra02: allocate a MAX_PAYLOAD-byte buffer
and a size cell holding MAX_PAYLOAD, call ra02_recv through the
library, pass its return code to error_check, and on normal return give
back bytes(buf[:size.value]) — the buffer truncated to the reported
size (Python slicing caps the slice at the 64-cell array length, as
List.take does). -/
def Ra02.recv (m : RecvOutcome) : Except PyExc (List Nat) := do
  error_check m.code
  return ((List.range MAX_PAYLOAD).map m.bufByte).take m.size

/-- C4: a successful Ra02.recv whose reported size does not exceed
MAX_PAYLOAD returns exactly size bytes, never a padded MAX_PAYLOAD
buffer, and in particular at most MAX_PAYLOAD bytes. -/
theorem recv_exact_length (m : RecvOutcome) (r : List Nat)
    (hsz : m.size ≤ MAX_PAYLOAD) (h : Ra02.recv m = .ok r) :
    r.length = m.size ∧ r.length ≤ MAX_PAYLOAD := by
  unfold Ra02.recv at h
  cases hc : error_check m.code with
  | ok u =>
      rw [hc] at h
      simp only [Except.bind, Except.pure, bind, pure] at h
      cases h
      constructor
      · simp [hsz]
      · simp
  | error e =>
      rw [hc] at h
      simp [Except.bind, bind] at h

/-- Witness for C4: a successful receive reporting 5 bytes yields a
5-byte result. -/
theorem recv_exact_length_witness :
    (((List.range MAX_PAYLOAD).map (fun _ => (7 : Nat))).take 5).length = 5 ∧
    (((List.range MAX_PAYLOAD).map (fun _ => (7 : Nat))).take 5).length ≤ MAX_PAYLOAD :=
  recv_exact_length ⟨0, 5, fun _ => 7⟩ _ (by decide) rfl

/-- Modelled from the spec: outcome of the transmit path of the C
function ra02_send (ra02.c, not present in this repository).  Per the
error reporting convention, every fallible operation returns one
integer code from the fixed 0..18 range, carried here with that range
constraint. -/
structure TransmitOutcome where
  code : Int
  code_in_range : 0 ≤ code ∧ code ≤ 18

/-- Modelled from the spec: the C function ra02_send (ra02.c, not
present in this repository) rejects a payload longer than MAX_PAYLOAD
with OutOfBounds (code 18) before any bus I/O occurs; otherwise it
transmits over the bus and returns the code of the transmit path.  The
second component counts the bus transactions performed. -/
def ra02_send (m : TransmitOutcome) (size : Nat) : Int × Nat :=
  if MAX_PAYLOAD < size then (18, 0) else (m.code, 1)

/-- The send method of class Ra02: marshal data into a ctypes byte
array, call ra02_send through the library with the array and its
length, and feed the returned code to error_check. -/
def Ra02.send (m : TransmitOutcome) (data : List Nat) :
    Except PyExc Unit × Nat :=
  ((ra02_send m data.length).1 |> error_check, (ra02_send m data.length).2)

/-- C5: an oversize payload makes Ra02.send raise OutOfBoundsException
with zero bus transactions performed; a payload within MAX_PAYLOAD
either succeeds or raises one of the 18 exception kinds of the closed
taxonomy. -/
theorem send_out_of_bounds (m : TransmitOutcome) (data : List Nat) :
    (MAX_PAYLOAD < data.length →
      Ra02.send m data = (.error .OutOfBoundsException, 0)) ∧
    (data.length ≤ MAX_PAYLOAD →
      (Ra02.send m data).1 = .ok () ∨
      ∃ e, (Ra02.send m data).1 = .error e ∧
        ∃ c : Int, 1 ≤ c ∧ c ≤ 18 ∧ EXCEPTIONS c = some e) := by
  constructor
  · intro h
    unfold Ra02.send ra02_send
    rw [if_pos h]
    rfl
  · intro h
    unfold Ra02.send ra02_send
    rw [if_neg (not_lt.mpr h)]
    obtain ⟨h0, h18⟩ := m.code_in_range
    by_cases hc : m.code = 0
    · left
      rw [hc]
      rfl
    · right
      obtain ⟨e, he⟩ := EXCEPTIONS_isSome_of_in_range m.code (by omega) h18
      refine ⟨e, ?_, m.code, by omega, h18, he⟩
      unfold error_check
      rw [if_pos hc, he]

/-- Witness for C5: a 65-byte payload is rejected as OutOfBounds with
the bus untouched, and a 3-byte payload on a succeeding transmit path
falls in the taxonomy disjunction. -/
theorem send_out_of_bounds_witness :
    Ra02.send ⟨0, by decide⟩ (List.replicate 65 0) =
      (.error .OutOfBoundsException, 0) ∧
    ((Ra02.send ⟨0, by decide⟩ (List.replicate 3 0)).1 = .ok () ∨
      ∃ e, (Ra02.send ⟨0, by decide⟩ (List.replicate 3 0)).1 = .error e ∧
        ∃ c : Int, 1 ≤ c ∧ c ≤ 18 ∧ EXCEPTIONS c = some e) :=
  ⟨(send_out_of_bounds ⟨0, by decide⟩ (List.replicate 65 0)).1
      (by simp [MAX_PAYLOAD]),
   (send_out_of_bounds ⟨0, by decide⟩ (List.replicate 3 0)).2
      (by simp [MAX_PAYLOAD])⟩

/-- Behaviour of the external C function ra02_poll_irq_flags for one
call: the error_t code it returns (its restype is declared c_int in the
binding and its prototype comment is error_t) and the irq flags byte it
stores into the driver context. -/
structure PollOutcome where
  code : Int
  flags : Nat

/-- The poll_irq_flags method of class Ra02, embedded exactly as
written in the binding: it calls ra02_poll_irq_flags through the
library and returns normally, without passing the returned error_t code
through error_check — unlike every other fallible method of the
binding, which wraps its FFI call in error_check. -/
def Ra02.poll_irq_flags (m : PollOutcome) : Except PyExc Nat :=
  .ok m.flags

/-- C6 failing-input evaluation: when ra02_poll_irq_flags reports error
code 1 (Failed), Ra02.poll_irq_flags still returns normally and
discards the non-zero code, although error_check maps code 1 to
FailedException; the binding thus silently swallows the error instead
of surfacing it to the caller. -/
theorem poll_irq_flags_discards_error :
    Ra02.poll_irq_flags ⟨1, 0⟩ = .ok 0 ∧
    error_check 1 = .error .FailedException :=
  ⟨rfl, rfl⟩

/-- Modelled from the spec: state of the C struct timeout_t
(timeout.h/timeout.c, not present in this repository) — a start
instant and a duration in milliseconds — extended with the
forced-expired flag that the expire operation sets so that the next
is_expired call returns true unconditionally.  Time instants are
monotonic-clock milliseconds. -/
structure TimeoutState where
  start : Nat
  duration : Nat
  forced : Bool
  deriving DecidableEq, Repr

/-- Modelled from the spec: timeout_start captures the current
monotonic time as start and stores the duration. -/
def timeout_start (now duration : Nat) : TimeoutState :=
  ⟨now, duration, false⟩

/-- Modelled from the spec: timeout_is_expired is true iff the timeout
was force-expired, or duration is non-zero and now - start has reached
the duration. -/
def timeout_is_expired (t : TimeoutState) (now : Nat) : Bool :=
  t.forced || (decide (t.duration ≠ 0) && decide (t.duration ≤ now - t.start))

/-- Modelled from the spec: timeout_expire sets internal state so that
the next is_expired call returns true unconditionally, regardless of
elapsed time. -/
def timeout_expire (t : TimeoutState) : TimeoutState :=
  ⟨t.start, t.duration, true⟩

/-- The zero-initialized timeout_t() struct the binding allocates in
the Timeout constructor before any start call. -/
def timeout_t_zero : TimeoutState :=
  ⟨0, 0, false⟩

/-- The constructor of class Timeout: allocate a zeroed timeout_t and,
only when the duration is truthy (non-zero), call start with it.  The
second component records whether start was invoked. -/
def Timeout.init (now duration : Nat) : TimeoutState × Bool :=
  if duration ≠ 0 then (timeout_start now duration, true)
  else (timeout_t_zero, false)

/-- C7: a timeout started with duration D > 0 is not expired at any
elapsed time t < D, is expired at any elapsed time t ≥ D, and after
expire is expired at every instant regardless of duration and elapsed
time. -/
theorem timeout_monotone (D now0 t : Nat) (s : TimeoutState)
    (hD : 0 < D) :
    (t < D → timeout_is_expired (timeout_start now0 D) (now0 + t) = false) ∧
    (D ≤ t → timeout_is_expired (timeout_start now0 D) (now0 + t) = true) ∧
    (∀ n, timeout_is_expired (timeout_expire s) n = true) := by
  refine ⟨?_, ?_, ?_⟩
  · intro h
    simp only [timeout_is_expired, timeout_start, Bool.or_eq_false_iff,
      Bool.and_eq_false_iff, decide_eq_false_iff_not]
    constructor
    · trivial
    · right
      omega
  · intro h
    simp only [timeout_is_expired, timeout_start, Bool.or_eq_true,
      Bool.and_eq_true, decide_eq_true_eq]
    right
    constructor
    · omega
    · omega
  · intro n
    simp [timeout_is_expired, timeout_expire]

/-- Witness for C7 at D = 5, start instant 100, elapsed times 4 and 5,
and a concrete state for the expire clause. -/
theorem timeout_monotone_witness :
    (timeout_is_expired (timeout_start 100 5) (100 + 4) = false) ∧
    (timeout_is_expired (timeout_start 100 5) (100 + 5) = true) ∧
    (timeout_is_expired (timeout_expire ⟨3, 0, false⟩) 3 = true) :=
  ⟨(timeout_monotone 5 100 4 ⟨3, 0, false⟩ (by decide)).1 (by decide),
   (timeout_monotone 5 100 5 ⟨3, 0, false⟩ (by decide)).2.1 (by decide),
   (timeout_monotone 5 100 5 ⟨3, 0, false⟩ (by decide)).2.2 3⟩

/-- C8: a Timeout constructed with duration 0 is inert — the
constructor never invokes start, is_expired stays false at every
instant however much time elapses, and the timeout can still be
force-expired via expire. -/
theorem timeout_zero_inert (now : Nat) :
    (Timeout.init now 0).2 = false ∧
    (∀ n, timeout_is_expired (Timeout.init now 0).1 n = false) ∧
    (∀ n, timeout_is_expired (timeout_expire (Timeout.init now 0).1) n = true) := by
  refine ⟨rfl, ?_, ?_⟩
  · intro n
    simp [Timeout.init, timeout_t_zero, timeout_is_expired]
  · intro n
    simp [Timeout.init, timeout_t_zero, timeout_is_expired, timeout_expire]

/-- Lifecycle state of the resources behind a transport or driver
handle: whether the underlying resource is still held. -/
structure HandleState where
  opened : Bool
  deriving DecidableEq, Repr

/-- Modelled from the spec: the C function spi_deinit (spi.c, not
present in this repository) releases the bus descriptor; calling it on
an already-closed transport is a no-op that faults nothing and reports
success (code 0).  The releaseCode argument is the code the release of
a still-open descriptor reports. -/
def spi_deinit (releaseCode : Int) (s : HandleState) : Int × HandleState :=
  if s.opened then (releaseCode, ⟨false⟩) else (0, s)

/-- The deinit method of class Spi: call spi_deinit through the library
and feed the returned code to error_check. -/
def Spi.deinit (releaseCode : Int) (s : HandleState) :
    Except PyExc Unit × HandleState :=
  ((spi_deinit releaseCode s).1 |> error_check, (spi_deinit releaseCode s).2)

/-- Modelled from the spec: the C function ra02_deinit (ra02.c, not
present in this repository) returns the chip to sleep mode; a second
deinit on an already-deinitialized driver is a no-op that faults
nothing and reports success (code 0). -/
def ra02_deinit (sleepCode : Int) (s : HandleState) : Int × HandleState :=
  if s.opened then (sleepCode, ⟨false⟩) else (0, s)

/-- The deinit method of class Ra02: call ra02_deinit through the
library and feed the returned code to error_check. -/
def Ra02.deinit (sleepCode : Int) (s : HandleState) :
    Except PyExc Unit × HandleState :=
  ((ra02_deinit sleepCode s).1 |> error_check, (ra02_deinit sleepCode s).2)

/-- C9: deinitialization is idempotent — a second Spi.deinit right
after a first one, and a second Ra02.deinit right after a first one,
both return normally with no error and leave the already-released
state unchanged, whatever the first call reported. -/
theorem deinit_idempotent (c1 c2 d1 d2 : Int) (s u : HandleState) :
    Spi.deinit c2 (Spi.deinit c1 s).2 = (.ok (), ⟨false⟩) ∧
    Ra02.deinit d2 (Ra02.deinit d1 u).2 = (.ok (), ⟨false⟩) := by
  constructor
  · unfold Spi.deinit spi_deinit
    cases hs : s.opened <;> cases s <;> simp_all <;> rfl
  · unfold Ra02.deinit ra02_deinit
    cases hu : u.opened <;> cases u <;> simp_all <;> rfl

/-- Symbols the binding resolves from the loaded ra02 shared library,
one field per C function whose signature the module __init__ declares;
each field carries the behavioural model its callers use. -/
structure Ra02Lib where
  spi_cfg_default : Unit → Int
  spi_init : String → Int
  spi_deinit : HandleState → Int × HandleState
  spi_transcieve : List Nat → BusExchange
  timeout_start : Nat → Nat → TimeoutState
  timeout_restart : TimeoutState → Nat → TimeoutState
  timeout_is_expired : TimeoutState → Nat → Bool
  timeout_expire : TimeoutState → TimeoutState
  ra02_init : Int
  ra02_deinit : HandleState → Int × HandleState
  ra02_reset : Int
  ra02_sleep : Int
  ra02_set_freq : Nat → Int
  ra02_get_power : Int × Nat
  ra02_set_power : Nat → Int
  ra02_set_sync_word : Nat → Int
  ra02_set_baudrate : Nat → Int
  ra02_set_bandwidth : Nat → Int
  ra02_set_preamble : Nat → Int
  ra02_set_sf : Nat → Int
  ra02_get_rssi : Int × Nat
  ra02_poll_irq_flags : PollOutcome
  ra02_send : Nat → TransmitOutcome
  ra02_recv : RecvOutcome

/-- The DynamicLibrary wrapper of the binding: it holds either the
loaded library or nothing (dynlib = None until ra02.__init__ loads the
shared object). -/
structure DynamicLibrary where
  dynlib : Option Ra02Lib

/-- Attribute access on the DynamicLibrary wrapper (__getattr__):
retrieve the requested symbol from the loaded library; when dynlib is
None, raise LibraryUninitializedException instead. -/
def DynamicLibrary.getattr {α : Type} (lib : DynamicLibrary)
    (sym : Ra02Lib → α) : Except PyExc α :=
  match lib.dynlib with
  | some l => .ok (sym l)
  | none => .error .LibraryUninitializedException

/-- The module-level handle RA02_DYNLIB as created at import time:
DynamicLibrary() whose dynlib is None, before any ra02.__init__ call. -/
def RA02_DYNLIB_initial : DynamicLibrary := ⟨none⟩

/-- Call shape shared by every Spi, Timeout and Ra02 method that
reaches the shared library: first resolve the C symbol through
__getattr__ on RA02_DYNLIB, then invoke it.  The second component
counts the bus/chip operations performed — the symbol is invoked only
when the lookup succeeded. -/
def DynamicLibrary.call {α : Type} (lib : DynamicLibrary)
    (sym : Ra02Lib → α) : Except PyExc α × Nat :=
  match lib.getattr sym with
  | .ok f => (.ok f, 1)
  | .error e => (.error e, 0)

/-- C10: before ra02.__init__ loads the shared library, any method
call that reaches the library raises LibraryUninitializedException at
the attribute lookup, whichever symbol it asks for, and performs no
bus or chip operation. -/
theorem uninitialized_library_raises {α : Type} (sym : Ra02Lib → α) :
    DynamicLibrary.getattr RA02_DYNLIB_initial sym =
      .error .LibraryUninitializedException ∧
    DynamicLibrary.call RA02_DYNLIB_initial sym =
      (.error .LibraryUninitializedException, 0) :=
  ⟨rfl, rfl⟩

end Ra02Binding
